import Mathlib

/-!
Verification of the mythcommflag wrapper (charrus/mythcommflag).

Shallow embedding of the skiplist derivation engine:
* `src/mythcommflagwrapper/const.py` — channel commercial-detection constants;
* `src/mythcommflagwrapper/__main__.py` — `BaseRecording.get_skiplist`,
  `BaseRecording.call_comskip`, `BaseRecording._parse_cutlist_file`,
  `BaseRecording.set_skiplist`, `RecordingJob` (job state updates, destructor),
  `main` argument validation;
* `src/mythcommflag-wrapper.py` — `Recording.call_silence_detect`
  (gap-merging reducer and its inline seconds→frames conversion).

External child processes (comskip, mythutil) are modelled by their observable
interface: an exit code, captured stderr, and the text of the output artifact
they leave behind.  Python floats in the silence path are modelled as `ℚ`
(every numeral appearing in the claims is exactly representable).  Python
`re` character classes `\d` and `\s` are modelled over ASCII.
-/

/-! ### Constants (`const.py`, MythTV job-status values) -/

/-- `COMM_DETECT_COMMFREE = -2` from `const.py`. -/
def COMM_DETECT_COMMFREE : Int := -2

/-- `COMM_DETECT_UNINIT = -1` from `const.py`. -/
def COMM_DETECT_UNINIT : Int := -1

/-- `COMM_DETECT_OFF = 0x00000000` from `const.py`. -/
def COMM_DETECT_OFF : Int := 0

/-- MythTV `Job.STARTING` (value as mirrored in `tests/test_main.py`). -/
def JOB_STARTING : Int := 1

/-- MythTV `Job.RUNNING`. -/
def JOB_RUNNING : Int := 2

/-- MythTV `Job.FINISHED`. -/
def JOB_FINISHED : Int := 4

/-- MythTV `Job.ERRORED`. -/
def JOB_ERRORED : Int := 256

/-! ### Cut-list parsing (`BaseRecording._parse_cutlist_file`)

The Python code matches each line of the cut-list file against the anchored
regex `(\d+)\s+(\d+)` (`re.match`) and appends `"{g1}-{g2}"` for each match.
Since `\d` and `\s` are disjoint character classes, the greedy match is
deterministic: a maximal digit run, a maximal whitespace run, a maximal
digit run. -/

/-- ASCII model of the regex class `\s`. -/
def isPySpace (c : Char) : Bool :=
  c = ' ' || c = '\t' || c = '\n' || c = '\r' || c = '\x0b' || c = '\x0c'

/-- Take a non-empty maximal prefix satisfying `p` (the regex `p+`),
returning the prefix and the rest; `none` when the first char fails `p`. -/
def takeRun (p : Char → Bool) (cs : List Char) : Option (List Char × List Char) :=
  let pre := cs.takeWhile p
  if pre.isEmpty then none else some (pre, cs.dropWhile p)

/-- `re.match(r"(\d+)\s+(\d+)", line)`: the two captured digit groups, or
`none` when the line does not start with two whitespace-separated digit
runs. -/
def matchSkiplistRe (line : List Char) : Option (String × String) :=
  match takeRun Char.isDigit line with
  | none => none
  | some (d1, rest) =>
    match takeRun isPySpace rest with
    | none => none
    | some (_, rest2) =>
      match takeRun Char.isDigit rest2 with
      | none => none
      | some (d2, _) => some (String.mk d1, String.mk d2)

/-- Split text into lines at `'\n'` (iteration over the file's lines; the
trailing newline kept by Python on each line cannot affect `matchSkiplistRe`,
so lines are modelled without it). -/
def splitLinesAux (acc : List Char) : List Char → List (List Char)
  | [] => [acc.reverse]
  | c :: cs =>
    if c = '\n' then acc.reverse :: splitLinesAux [] cs
    else splitLinesAux (c :: acc) cs

/-- All lines of a file's text. -/
def pyLines (text : String) : List (List Char) :=
  splitLinesAux [] text.toList

/-- The accumulating loop of `_parse_cutlist_file`: for each line matching
the regex, append `"{g1}-{g2}"` to the skiplist. -/
def parseCutlistLoop (skiplist : List String) : List (List Char) → List String
  | [] => skiplist
  | line :: rest =>
    match matchSkiplistRe line with
    | some (a, b) => parseCutlistLoop (skiplist ++ [a ++ "-" ++ b]) rest
    | none => parseCutlistLoop skiplist rest

/-- `BaseRecording._parse_cutlist_file`, as a function of the cut-list
file's text. -/
def parseCutlist (text : String) : List String :=
  parseCutlistLoop [] (pyLines text)

/-! ### comskip invocation (`BaseRecording.call_comskip`) -/

/-- Observable outcome of `call_comskip`: a returned skiplist, a raised
`ComskipError`, or a propagated `OSError` when the expected cut-list
artifact is missing after a zero exit. -/
inductive ComskipOutcome
  | skiplist (l : List String)
  | comskipError (msg : String)
  | fileError
deriving DecidableEq, Repr

/-- `BaseRecording.call_comskip` as a function of the comskip child
process's exit code, its captured stderr, and the cut-list artifact it
left behind (`none` when the file does not exist). -/
def call_comskip (returncode : Int) (stderr : String) (cutlist : Option String) :
    ComskipOutcome :=
  if returncode = 1 then ComskipOutcome.skiplist []
  else if returncode ≠ 0 then ComskipOutcome.comskipError ("comskip failed: " ++ stderr)
  else
    match cutlist with
    | none => ComskipOutcome.fileError
    | some text => ComskipOutcome.skiplist (parseCutlist text)

/-! ### Policy gate (`BaseRecording.get_skiplist`) -/

/-- `BaseRecording.get_skiplist`: skip detection entirely when the channel's
commercial-detection method is `COMM_DETECT_COMMFREE` or `COMM_DETECT_OFF`,
otherwise run comskip.  The second component counts comskip child-process
invocations. -/
def get_skiplist (commmethod : Int) (returncode : Int) (stderr : String)
    (cutlist : Option String) : ComskipOutcome × Nat :=
  if commmethod = COMM_DETECT_COMMFREE ∨ commmethod = COMM_DETECT_OFF then
    (ComskipOutcome.skiplist [], 0)
  else
    (call_comskip returncode stderr cutlist, 1)

/-! ### Claims C1, C2, C8 -/

/-- C1: for every recording whose channel commercial-detection policy is
OFF or COMMERCIAL_FREE, `get_skiplist` returns the empty list and invokes
no external detector process (`call_comskip` is never reached). -/
theorem c1_policy_gate (commmethod returncode : Int) (stderr : String)
    (cutlist : Option String)
    (h : commmethod = COMM_DETECT_COMMFREE ∨ commmethod = COMM_DETECT_OFF) :
    get_skiplist commmethod returncode stderr cutlist = (ComskipOutcome.skiplist [], 0) := by
  simp [get_skiplist, h]

/-- Witness for C1 at `commmethod = COMM_DETECT_COMMFREE`. -/
theorem c1_policy_gate_witness :
    get_skiplist (-2) 0 "" none = (ComskipOutcome.skiplist [], 0) :=
  c1_policy_gate (-2) 0 "" none (Or.inl rfl)

/-- C2: `call_comskip` interprets the comskip exit code as: `0` = breaks
found, the cut-list artifact is parsed into the returned skiplist; `1` =
no breaks, the empty list is returned without error; any other exit code
raises `ComskipError`. -/
theorem c2_exit_codes (returncode : Int) (stderr : String) (text : String)
    (cutlist : Option String) :
    (call_comskip 0 stderr (some text) = ComskipOutcome.skiplist (parseCutlist text))
    ∧ (call_comskip 1 stderr cutlist = ComskipOutcome.skiplist [])
    ∧ (returncode ≠ 0 → returncode ≠ 1 →
        call_comskip returncode stderr cutlist
          = ComskipOutcome.comskipError ("comskip failed: " ++ stderr)) := by
  refine ⟨by simp [call_comskip], by simp [call_comskip], fun h0 h1 => ?_⟩
  simp [call_comskip, h0, h1]

/-- Witness for C2: a run with exit code 2 raises `ComskipError`. -/
theorem c2_exit_codes_witness :
    call_comskip 2 "boom" none = ComskipOutcome.comskipError ("comskip failed: " ++ "boom") :=
  (c2_exit_codes 2 "boom" "" none).2.2 (by decide) (by decide)

/-! ### Skiplist persistence (`BaseRecording.set_skiplist`) -/

/-- The mythutil argument list built by `set_skiplist`: `--setskiplist`
with the comma-joined entries when the skiplist is non-empty, otherwise
`--clearskiplist`. -/
def set_skiplist_args (chanid : Int) (starttime : String) (skiplist : List String) :
    List String :=
  ["mythutil", "--chanid=" ++ toString chanid, "--starttime=" ++ starttime]
    ++ (if skiplist.isEmpty then ["--clearskiplist"]
        else ["--setskiplist", String.intercalate "," skiplist])

/-- `BaseRecording.set_skiplist` as a function of the mythutil child
process's exit code and the recording's current `commflagged` flag:
returns the command run, the raised-or-ok outcome, and the final
`commflagged` flag (`_recorded.update(commflagged=True)` runs only after
a zero exit; a non-zero exit raises before reaching it). -/
def set_skiplist_run (chanid : Int) (starttime : String) (skiplist : List String)
    (mythutilRet : Int) (commflagged : Bool) :
    List String × Except String Unit × Bool :=
  let args := set_skiplist_args chanid starttime skiplist
  if mythutilRet ≠ 0 then (args, Except.error "mythutil failed", commflagged)
  else (args, Except.ok (), true)

/-! ### Job record and the destructor safety net (`RecordingJob.__del__`) -/

/-- A MythTV job as seen by this program: a status value and a free-text
comment. -/
structure JobRec where
  status : Int
  comment : String
deriving DecidableEq, Repr

/-- `RecordingJob.__del__`: when a job exists and its status is neither
`ERRORED` nor `FINISHED`, update it to `ERRORED` with comment
`"Destructor called"` and emit an error log line (second component);
otherwise leave it untouched. -/
def recordingJobDel (job : Option JobRec) : Option JobRec × Bool :=
  match job with
  | none => (none, false)
  | some j =>
    if ¬ (j.status = JOB_ERRORED ∨ j.status = JOB_FINISHED) then
      (some { status := JOB_ERRORED, comment := "Destructor called" }, true)
    else (some j, false)

/-! ### CLI argument validation (`main`) -/

/-- What `main` does with the parsed arguments: raise `RuntimeError`
before any recording resolution, construct a `RecordingJob`, or construct
a direct `Recording`. -/
inductive CliOutcome
  | cliError
  | jobPath (jobid : String)
  | directPath (chanid starttime : String)
deriving DecidableEq, Repr

/-- Python truthiness of an optional string argument (`None` and `""` are
falsy). -/
def truthyArg : Option String → Bool
  | none => false
  | some s => !s.isEmpty

/-- The dispatch in `main`: `if not args.jobid and not (args.starttime and
args.chanid): raise RuntimeError(...)`, then `if args.jobid:` build a
`RecordingJob` else build a `Recording`. -/
def cliDispatch (jobid chanid starttime : Option String) : CliOutcome :=
  if ¬ truthyArg jobid ∧ ¬ (truthyArg starttime ∧ truthyArg chanid) then
    CliOutcome.cliError
  else if truthyArg jobid then CliOutcome.jobPath (jobid.getD "")
  else CliOutcome.directPath (chanid.getD "") (starttime.getD "")

/-- C8: the cut-list parser emits one `"start-end"` entry per line beginning
with two whitespace-separated digit runs and ignores every other line; on
the sample cut-list text interleaved with its header lines it yields exactly
`1-3589`, `18702-25873`, `47662-47970` in order. -/
theorem c8_cutlist_parsing :
    (∀ text : String,
      parseCutlist text
        = (pyLines text).filterMap
            (fun line => (matchSkiplistRe line).map (fun p => p.1 ++ "-" ++ p.2)))
    ∧ parseCutlist
        "FILE PROCESSING COMPLETE  47970 FRAMES AT  2500\n-------------------\n1       3589\n18702   25873\n47662   47970\n"
        = ["1-3589", "18702-25873", "47662-47970"] := by
  constructor
  · intro text
    suffices h : ∀ (ls : List (List Char)) (acc : List String),
        parseCutlistLoop acc ls
          = acc ++ ls.filterMap (fun line => (matchSkiplistRe line).map (fun p => p.1 ++ "-" ++ p.2)) by
      simpa using h (pyLines text) []
    intro ls
    induction ls with
    | nil => intro acc; simp [parseCutlistLoop]
    | cons line rest ih =>
      intro acc
      cases hm : matchSkiplistRe line with
      | none => simp [parseCutlistLoop, hm, ih]
      | some p => simp [parseCutlistLoop, hm, ih]
  · decide

/-- C6: on teardown, whenever a Job exists and its status is any value
other than FINISHED or ERRORED, the destructor forces the Job to ERRORED
with an abnormal-termination comment and emits an error log line; when the
status is already FINISHED or ERRORED it leaves the Job unchanged. -/
theorem c6_destructor_safety_net (j : JobRec) :
    (j.status ≠ JOB_FINISHED → j.status ≠ JOB_ERRORED →
      recordingJobDel (some j)
        = (some { status := JOB_ERRORED, comment := "Destructor called" }, true))
    ∧ (j.status = JOB_FINISHED ∨ j.status = JOB_ERRORED →
      recordingJobDel (some j) = (some j, false)) := by
  constructor
  · intro h1 h2
    simp [recordingJobDel, h1, h2]
  · intro h
    have : j.status = JOB_ERRORED ∨ j.status = JOB_FINISHED := h.symm
    simp [recordingJobDel, this]

/-- Witness for C6: a job still in RUNNING is forced to ERRORED. -/
theorem c6_destructor_safety_net_witness :
    recordingJobDel (some { status := JOB_RUNNING, comment := "Scanning" })
      = (some { status := JOB_ERRORED, comment := "Destructor called" }, true) :=
  (c6_destructor_safety_net { status := JOB_RUNNING, comment := "Scanning" }).1
    (by decide) (by decide)

/-- C9 counterexample: supplying both a job id and a channel id with a
start time does not fail — the job id silently takes precedence — whereas
the claim says every combination other than exactly one form fails. -/
theorem c9_counterexample :
    cliDispatch (some "123") (some "1001") (some "20250101083714")
        = CliOutcome.jobPath "123"
    ∧ cliDispatch (some "123") (some "1001") (some "20250101083714")
        ≠ CliOutcome.cliError := by
  constructor
  · decide
  · decide

/-- C9 amended: the process fails before any resolution exactly when the
job id is absent and the channel-id/start-time pair is not fully present;
whenever a job id is supplied (even together with the other form) the job
path is taken with no error. -/
theorem c9_amended_cli_validation (jobid chanid starttime : Option String) :
    (cliDispatch jobid chanid starttime = CliOutcome.cliError ↔
      ¬ truthyArg jobid ∧ ¬ (truthyArg starttime ∧ truthyArg chanid))
    ∧ (truthyArg jobid →
        cliDispatch jobid chanid starttime = CliOutcome.jobPath (jobid.getD "")) := by
  constructor
  · by_cases hj : truthyArg jobid
    · have hc : ¬ (¬ truthyArg jobid ∧ ¬ (truthyArg starttime ∧ truthyArg chanid)) :=
        fun h => h.1 hj
      simp [cliDispatch, hc, hj]
    · by_cases hst : truthyArg starttime ∧ truthyArg chanid
      · have hc : ¬ (¬ truthyArg jobid ∧ ¬ (truthyArg starttime ∧ truthyArg chanid)) :=
          fun h => h.2 hst
        have hjf : truthyArg jobid = false := by simpa using hj
        simp [cliDispatch, hc, hjf, hst.1, hst.2]
      · have hc : ¬ truthyArg jobid ∧ ¬ (truthyArg starttime ∧ truthyArg chanid) := ⟨hj, hst⟩
        simp [cliDispatch, hc]
  · intro hj
    have hc : ¬ (¬ truthyArg jobid ∧ ¬ (truthyArg starttime ∧ truthyArg chanid)) :=
      fun h => h.1 hj
    simp [cliDispatch, hc, hj]

/-- Witness for C9 amended: job id absent and start time absent fails. -/
theorem c9_amended_cli_validation_witness :
    cliDispatch none (some "1001") none = CliOutcome.cliError :=
  (c9_amended_cli_validation none (some "1001") none).1.2 (by decide)

/-- C10: `set_skiplist` sets the commflagged flag only after mythutil
exits with code 0; on any non-zero exit it raises and leaves the flag
unchanged. -/
theorem c10_set_skiplist_atomic (chanid : Int) (starttime : String)
    (skiplist : List String) (mythutilRet : Int) (flag : Bool) :
    (mythutilRet ≠ 0 →
      set_skiplist_run chanid starttime skiplist mythutilRet flag
        = (set_skiplist_args chanid starttime skiplist, Except.error "mythutil failed", flag))
    ∧ ((set_skiplist_run chanid starttime skiplist mythutilRet flag).2.2 = true →
        flag = true ∨ mythutilRet = 0)
    ∧ (mythutilRet = 0 →
      set_skiplist_run chanid starttime skiplist mythutilRet flag
        = (set_skiplist_args chanid starttime skiplist, Except.ok (), true)) := by
  refine ⟨fun h => by simp [set_skiplist_run, h], fun h => ?_, fun h => by simp [set_skiplist_run, h]⟩
  by_cases h0 : mythutilRet = 0
  · exact Or.inr h0
  · left
    simpa [set_skiplist_run, h0] using h

/-! ### Silence detection (`Recording.call_silence_detect`, legacy script)

The legacy `mythcommflag-wrapper.py` merges sorted silence candidates with a
400-second gap tolerance and converts each emitted group to frames inline
with `f"{int(start*25+1)}-{int(finish*25-25)}"`.  Seconds are modelled as
`ℚ`; Python `int()` truncates toward zero. -/

/-- Python `int()` applied to a rational: truncation toward zero. -/
def pytrunc (q : ℚ) : Int :=
  if 0 ≤ q then ⌊q⌋ else ⌈q⌉

/-- The frame interval the silence path emits for one merged group:
`(int(start*25+1), int(finish*25-25))`. -/
def silenceFrameInterval (start finish : ℚ) : Int × Int :=
  (pytrunc (start * 25 + 1), pytrunc (finish * 25 - 25))

/-- The `"start-end"` token the silence path appends for one merged group. -/
def silenceFrameString (start finish : ℚ) : String :=
  toString (silenceFrameInterval start finish).1 ++ "-"
    ++ toString (silenceFrameInterval start finish).2

/-- The gap-merging loop, observed at the seconds level: the list of
accumulated `(start, finish)` groups the loop emits.  A candidate whose
begin is within 400 s of the current group's start extends the group;
otherwise the group is emitted and the candidate starts a new one. -/
def silenceMergeAux (start finish : ℚ) : List (ℚ × ℚ) → List (ℚ × ℚ)
  | [] => []
  | (b, e) :: rest =>
    if b - start < 400 then silenceMergeAux start e rest
    else (start, finish) :: silenceMergeAux b e rest

/-- The seconds-level groups emitted by `call_silence_detect`, starting
from the accumulator `(start, finish) = (0, 0)`. -/
def silenceMerge (cands : List (ℚ × ℚ)) : List (ℚ × ℚ) :=
  silenceMergeAux 0 0 cands

/-- The value of the accumulator `(start, finish)` after the loop has
consumed all candidates. -/
def silenceFinalAcc (start finish : ℚ) : List (ℚ × ℚ) → ℚ × ℚ
  | [] => (start, finish)
  | (b, e) :: rest =>
    if b - start < 400 then silenceFinalAcc start e rest
    else silenceFinalAcc b e rest

/-- The loop of `call_silence_detect` exactly as written: appends the
frame-converted string whenever a group is emitted. -/
def silenceLoop (start finish : ℚ) : List (ℚ × ℚ) → List String
  | [] => []
  | (b, e) :: rest =>
    if b - start < 400 then silenceLoop start e rest
    else silenceFrameString start finish :: silenceLoop b e rest

/-- `Recording.call_silence_detect`, as a function of the sorted silence
candidates `(begin_s, end_s)` read from the mp3splt log (the duration
column is matched but never used). -/
def call_silence_detect (cands : List (ℚ × ℚ)) : List String :=
  silenceLoop 0 0 cands

/-- Comparison definition following the spec's words (§4.3 step 5): the
corrected gap-merging variant that additionally emits the final
accumulated `(start, finish)` after the loop ends. -/
def silenceMergeEmitAux (start finish : ℚ) : List (ℚ × ℚ) → List (ℚ × ℚ)
  | [] => [(start, finish)]
  | (b, e) :: rest =>
    if b - start < 400 then silenceMergeEmitAux start e rest
    else (start, finish) :: silenceMergeEmitAux b e rest

/-- The spec's corrected merge, from the initial accumulator `(0, 0)`. -/
def silenceMergeEmitTrailing (cands : List (ℚ × ℚ)) : List (ℚ × ℚ) :=
  silenceMergeEmitAux 0 0 cands

/-- Comparison definition following the spec's words (§4.2): frame-time
conversion with `floor(s * fps) + 1` applied to both bounds. -/
def specFrameInterval (start finish fps : ℚ) : Int × Int :=
  (⌊start * fps⌋ + 1, ⌊finish * fps⌋ + 1)

/-- The emit-at-end variant produces exactly the loop's emitted groups
followed by the final accumulator. -/
theorem silenceMergeEmitAux_eq (cands : List (ℚ × ℚ)) :
    ∀ start finish : ℚ,
      silenceMergeEmitAux start finish cands
        = silenceMergeAux start finish cands ++ [silenceFinalAcc start finish cands] := by
  induction cands with
  | nil => intro start finish; simp [silenceMergeEmitAux, silenceMergeAux, silenceFinalAcc]
  | cons c rest ih =>
    intro start finish
    obtain ⟨b, e⟩ := c
    by_cases h : b - start < 400
    · simp [silenceMergeEmitAux, silenceMergeAux, silenceFinalAcc, h, ih]
    · simp [silenceMergeEmitAux, silenceMergeAux, silenceFinalAcc, h, ih]

/-- The string-emitting loop is the frame rendering of the seconds-level
groups. -/
theorem silenceLoop_eq_map (cands : List (ℚ × ℚ)) :
    ∀ start finish : ℚ,
      silenceLoop start finish cands
        = (silenceMergeAux start finish cands).map (fun p => silenceFrameString p.1 p.2) := by
  induction cands with
  | nil => intro start finish; simp [silenceLoop, silenceMergeAux]
  | cons c rest ih =>
    intro start finish
    obtain ⟨b, e⟩ := c
    by_cases h : b - start < 400
    · simp [silenceLoop, silenceMergeAux, h, ih]
    · simp [silenceLoop, silenceMergeAux, h, ih]

/-- C3 counterexample: on the spec's own example the reducer returns the
single group `(0, 20)`, not the claimed two groups. -/
theorem c3_counterexample :
    silenceMerge [(0, 10), (5, 20), (500, 510)] = [(0, 20)]
    ∧ silenceMerge [(0, 10), (5, 20), (500, 510)] ≠ [(0, 20), (500, 510)] := by
  constructor <;> norm_num [silenceMerge, silenceMergeAux]

/-- C3 amended: for the candidates `(0,10), (5,20), (500,510)` with the
400-second threshold the reducer emits exactly one group, covering seconds
0 to 20; the candidate `(500, 510)` starts a new accumulator group
(because `500 - 0 ≥ 400`) which is never emitted since the loop ends. -/
theorem c3_amended_gap_merge :
    silenceMerge [(0, 10), (5, 20), (500, 510)] = [(0, 20)]
    ∧ silenceFinalAcc 0 0 [(0, 10), (5, 20), (500, 510)] = (500, 510) := by
  constructor
  · norm_num [silenceMerge, silenceMergeAux]
  · norm_num [silenceFinalAcc]

/-- C4: on every non-empty sorted candidate sequence, the loop never emits
the final accumulated interval: the code's output is the corrected
(emit-at-end) merge minus its trailing group, and the returned skiplist is
the frame rendering of exactly those non-trailing groups. -/
theorem c4_trailing_group_dropped (cands : List (ℚ × ℚ))
    (hne : cands ≠ [])
    (hsorted : List.Pairwise (fun a b : ℚ × ℚ => a.1 ≤ b.1) cands) :
    silenceMergeEmitTrailing cands
      = silenceMerge cands ++ [silenceFinalAcc 0 0 cands]
    ∧ call_silence_detect cands
      = ((silenceMergeEmitTrailing cands).dropLast).map (fun p => silenceFrameString p.1 p.2) := by
  have h1 : silenceMergeEmitTrailing cands
      = silenceMerge cands ++ [silenceFinalAcc 0 0 cands] :=
    silenceMergeEmitAux_eq cands 0 0
  refine ⟨h1, ?_⟩
  rw [h1, List.dropLast_concat]
  exact silenceLoop_eq_map cands 0 0

/-- Witness for C4 at the spec's example candidates. -/
theorem c4_trailing_group_dropped_witness :
    silenceMergeEmitTrailing [(0, 10), (5, 20), (500, 510)]
      = silenceMerge [(0, 10), (5, 20), (500, 510)]
        ++ [silenceFinalAcc 0 0 [(0, 10), (5, 20), (500, 510)]]
    ∧ call_silence_detect [(0, 10), (5, 20), (500, 510)]
      = ((silenceMergeEmitTrailing [(0, 10), (5, 20), (500, 510)]).dropLast).map
          (fun p => silenceFrameString p.1 p.2) :=
  c4_trailing_group_dropped [(0, 10), (5, 20), (500, 510)] (by simp)
    (by norm_num [List.pairwise_cons])

/-- C5 counterexample: the group `(0, 20)` emitted by the silence path
yields the frame interval `(1, 475)` — rendered `"1-475"` — whereas the
claimed formula `(floor(s*fps)+1, floor(e*fps)+1)` at fps 25 gives
`(1, 501)`. -/
theorem c5_counterexample :
    call_silence_detect [(0, 10), (5, 20), (500, 510)] = ["1-475"]
    ∧ silenceFrameInterval 0 20 = (1, 475)
    ∧ specFrameInterval 0 20 25 = (1, 501)
    ∧ silenceFrameInterval 0 20 ≠ specFrameInterval 0 20 25 := by
  refine ⟨?_, ?_, ?_, ?_⟩
  · have h1 : silenceFrameInterval 0 20 = (1, 475) := by
      norm_num [silenceFrameInterval, pytrunc, Prod.ext_iff]
    have h : silenceFrameString 0 20 = "1-475" := by
      rw [silenceFrameString, h1]; rfl
    norm_num [call_silence_detect, silenceLoop, h]
  · norm_num [silenceFrameInterval, pytrunc, Prod.ext_iff]
  · norm_num [specFrameInterval, Prod.ext_iff]
  · norm_num [silenceFrameInterval, specFrameInterval, pytrunc, Prod.ext_iff]

/-- C5 amended: every emitted interval of the silence path is the frame
rendering of its merged group with `start_frame = floor(start_s*25) + 1`
and `end_frame = floor(end_s*25) - 25`: the frame rate is hardcoded to 25
(not taken from the recording descriptor) and the two bounds use different
offsets (`+1` and `-25`). -/
theorem c5_amended_frame_conversion :
    (∀ cands : List (ℚ × ℚ),
      call_silence_detect cands
        = (silenceMerge cands).map (fun p => silenceFrameString p.1 p.2))
    ∧ (∀ start finish : ℚ, 0 ≤ start → 1 ≤ finish →
        silenceFrameInterval start finish = (⌊start * 25⌋ + 1, ⌊finish * 25⌋ - 25)) := by
  constructor
  · intro cands
    exact silenceLoop_eq_map cands 0 0
  · intro start finish hs hf
    have h1 : (0 : ℚ) ≤ start * 25 + 1 := by nlinarith
    have h2 : (0 : ℚ) ≤ finish * 25 - 25 := by nlinarith
    simp only [silenceFrameInterval, pytrunc, if_pos h1, if_pos h2, Prod.mk.injEq]
    constructor
    · have e1 : start * 25 + 1 = start * 25 + ((1 : Int) : ℚ) := by norm_num
      rw [e1, Int.floor_add_int]
    · have e2 : finish * 25 - 25 = finish * 25 - ((25 : Int) : ℚ) := by norm_num
      rw [e2, Int.floor_sub_int]

/-- Witness for C5 amended at the emitted group `(0, 20)`. -/
theorem c5_amended_frame_conversion_witness :
    silenceFrameInterval 0 20 = (⌊(0 : ℚ) * 25⌋ + 1, ⌊(20 : ℚ) * 25⌋ - 25) :=
  c5_amended_frame_conversion.2 0 20 (by norm_num) (by norm_num)

/-! ### Job-driven run (`RecordingJob`, `main`)

The trace of `Job.update` calls a job-driven run makes, composed from the
embedded pieces exactly as `RecordingJob.__init__`, `RecordingJob.get_skiplist`,
`RecordingJob.set_skiplist` and `main` chain them. -/

/-- One `Job.update` call: the status written and the comment written (if
any). -/
structure JobUpdate where
  status : Int
  comment : Option String
deriving DecidableEq, Repr

/-- The `f"{len(skiplist)} break(s) found."` comment. -/
def breaksComment (n : Nat) : String :=
  toString n ++ " break(s) found."

/-- `RecordingJob.get_skiplist`: set the job to RUNNING with comment
`"Scanning"`, run the base `get_skiplist`; if it raises, set the job to
ERRORED with comment `"commskip failed"` and re-raise.  Returns the
outcome, the comskip invocation count, and the job updates in order. -/
def recordingJob_get_skiplist (commmethod returncode : Int) (stderr : String)
    (cutlist : Option String) :
    Except String (List String) × Nat × List JobUpdate :=
  match get_skiplist commmethod returncode stderr cutlist with
  | (ComskipOutcome.skiplist l, n) =>
      (Except.ok l, n, [{ status := JOB_RUNNING, comment := some "Scanning" }])
  | (ComskipOutcome.comskipError msg, n) =>
      (Except.error msg, n,
        [{ status := JOB_RUNNING, comment := some "Scanning" },
         { status := JOB_ERRORED, comment := some "commskip failed" }])
  | (ComskipOutcome.fileError, n) =>
      (Except.error "cutlist file not found", n,
        [{ status := JOB_RUNNING, comment := some "Scanning" },
         { status := JOB_ERRORED, comment := some "commskip failed" }])

/-- `RecordingJob.set_skiplist`: run the base `set_skiplist`; if it
raises, set the job to ERRORED with comment `"mythutil failed"` and
re-raise; on success set the job to FINISHED with the break-count
comment.  Returns the outcome, the final commflagged flag, and the job
updates in order. -/
def recordingJob_set_skiplist (chanid : Int) (starttime : String)
    (skiplist : List String) (mythutilRet : Int) (commflagged : Bool) :
    Except String Unit × Bool × List JobUpdate :=
  match set_skiplist_run chanid starttime skiplist mythutilRet commflagged with
  | (_, Except.error msg, flag) =>
      (Except.error msg, flag,
        [{ status := JOB_ERRORED, comment := some "mythutil failed" }])
  | (_, Except.ok _, flag) =>
      (Except.ok (), flag,
        [{ status := JOB_FINISHED, comment := some (breaksComment skiplist.length) }])

/-- Outcome of a whole run: a persisted skiplist with the final
commflagged flag, or a propagated fatal error. -/
inductive RunOutcome
  | finished (skiplist : List String) (commflagged : Bool)
  | failed (msg : String)
deriving DecidableEq, Repr

/-- The body of `main` on the job path: `RecordingJob(...)` (which writes
STARTING), `get_skiplist()`, `set_skiplist(...)`, with the accumulated job
updates in order. -/
def runRecordingJob (chanid : Int) (starttime : String) (commmethod returncode : Int)
    (stderr : String) (cutlist : Option String) (mythutilRet : Int)
    (commflagged : Bool) : RunOutcome × List JobUpdate :=
  let u0 : List JobUpdate := [{ status := JOB_STARTING, comment := none }]
  match recordingJob_get_skiplist commmethod returncode stderr cutlist with
  | (Except.error msg, _, u1) => (RunOutcome.failed msg, u0 ++ u1)
  | (Except.ok l, _, u1) =>
    match recordingJob_set_skiplist chanid starttime l mythutilRet commflagged with
    | (Except.error msg, _, u2) => (RunOutcome.failed msg, u0 ++ u1 ++ u2)
    | (Except.ok _, flag, u2) => (RunOutcome.finished l flag, u0 ++ u1 ++ u2)

/-- The updates the destructor makes, given the job's status at teardown
(`RecordingJob.__del__` at the trace level). -/
def recordingJobDelUpdates (status : Int) : List JobUpdate :=
  if ¬ (status = JOB_ERRORED ∨ status = JOB_FINISHED) then
    [{ status := JOB_ERRORED, comment := some "Destructor called" }]
  else []

/-- The job's status after a list of updates (STARTING is written at
construction, so the list is never empty on the job path). -/
def lastJobStatus (updates : List JobUpdate) : Int :=
  (updates.getLast?).elim JOB_STARTING JobUpdate.status

/-- A whole job-driven run including teardown: `main`'s job path followed
by the destructor safety net. -/
def runRecordingJobFull (chanid : Int) (starttime : String)
    (commmethod returncode : Int) (stderr : String) (cutlist : Option String)
    (mythutilRet : Int) (commflagged : Bool) : RunOutcome × List JobUpdate :=
  let r := runRecordingJob chanid starttime commmethod returncode stderr cutlist
    mythutilRet commflagged
  (r.1, r.2 ++ recordingJobDelUpdates (lastJobStatus r.2))

/-- C7: with a policy other than OFF/COMMERCIAL_FREE, a detector exit code
of 1 and successful persistence, the final skiplist is empty and the Job
moves through exactly STARTING, RUNNING (comment `"Scanning"`), FINISHED
(comment `"0 break(s) found."`), reaching a terminal status exactly once;
the empty skiplist is persisted through mythutil's `--clearskiplist`. -/
theorem c7_auto_no_breaks_lifecycle (chanid : Int) (starttime : String)
    (commmethod : Int) (stderr : String) (cutlist : Option String)
    (commflagged : Bool)
    (h1 : commmethod ≠ COMM_DETECT_COMMFREE) (h2 : commmethod ≠ COMM_DETECT_OFF) :
    runRecordingJobFull chanid starttime commmethod 1 stderr cutlist 0 commflagged
      = (RunOutcome.finished [] true,
         [{ status := JOB_STARTING, comment := none },
          { status := JOB_RUNNING, comment := some "Scanning" },
          { status := JOB_FINISHED, comment := some "0 break(s) found." }])
    ∧ ((runRecordingJobFull chanid starttime commmethod 1 stderr cutlist 0
          commflagged).2.countP
        (fun u => u.status == JOB_FINISHED || u.status == JOB_ERRORED) = 1)
    ∧ (set_skiplist_run chanid starttime [] 0 commflagged).1
        = ["mythutil", "--chanid=" ++ toString chanid,
           "--starttime=" ++ starttime, "--clearskiplist"] := by
  have hno : ¬ (commmethod = COMM_DETECT_COMMFREE ∨ commmethod = COMM_DETECT_OFF) := by
    rintro (h | h)
    · exact h1 h
    · exact h2 h
  have hg : get_skiplist commmethod 1 stderr cutlist = (ComskipOutcome.skiplist [], 1) := by
    simp [get_skiplist, hno, call_comskip]
  have hr : recordingJob_get_skiplist commmethod 1 stderr cutlist
      = (Except.ok [], 1, [{ status := JOB_RUNNING, comment := some "Scanning" }]) := by
    rw [recordingJob_get_skiplist, hg]
  have hb : breaksComment 0 = "0 break(s) found." := by rfl
  have hs : recordingJob_set_skiplist chanid starttime [] 0 commflagged
      = (Except.ok (), true,
         [{ status := JOB_FINISHED, comment := some "0 break(s) found." }]) := by
    rw [recordingJob_set_skiplist, set_skiplist_run]
    simp [hb]
  have hrun : runRecordingJob chanid starttime commmethod 1 stderr cutlist 0 commflagged
      = (RunOutcome.finished [] true,
         [{ status := JOB_STARTING, comment := none },
          { status := JOB_RUNNING, comment := some "Scanning" },
          { status := JOB_FINISHED, comment := some "0 break(s) found." }]) := by
    rw [runRecordingJob, hr]
    simp [hs]
  have hfull : runRecordingJobFull chanid starttime commmethod 1 stderr cutlist 0 commflagged
      = (RunOutcome.finished [] true,
         [{ status := JOB_STARTING, comment := none },
          { status := JOB_RUNNING, comment := some "Scanning" },
          { status := JOB_FINISHED, comment := some "0 break(s) found." }]) := by
    rw [runRecordingJobFull, hrun]
    norm_num [recordingJobDelUpdates, lastJobStatus, JOB_FINISHED, JOB_ERRORED]
  refine ⟨hfull, ?_, ?_⟩
  · rw [hfull]
    rfl
  · simp [set_skiplist_run, set_skiplist_args]

/-- Witness for C7 at concrete arguments. -/
theorem c7_auto_no_breaks_lifecycle_witness :
    runRecordingJobFull 1001 "20250101083714" 1 1 "" none 0 false
      = (RunOutcome.finished [] true,
         [{ status := JOB_STARTING, comment := none },
          { status := JOB_RUNNING, comment := some "Scanning" },
          { status := JOB_FINISHED, comment := some "0 break(s) found." }]) :=
  (c7_auto_no_breaks_lifecycle 1001 "20250101083714" 1 "" none false
    (by decide) (by decide)).1

/-- Witness for C10: mythutil exiting 3 raises and leaves the flag false. -/
theorem c10_set_skiplist_atomic_witness :
    set_skiplist_run 1001 "20250101083714" ["1-475"] 3 false
      = (set_skiplist_args 1001 "20250101083714" ["1-475"],
         Except.error "mythutil failed", false) :=
  (c10_set_skiplist_atomic 1001 "20250101083714" ["1-475"] 3 false).1 (by decide)
